import Mathlib

/-
Verification model of the QualitySync backend (role-based QA workflow
tracker).  The definitions below are shallow embeddings of the Express
controllers, route validators and database schema of the repository:

  - test cases:  backend controller file (getTests, getTest, createTest,
    updateTestResult, updateTest) together with the route validators in
    testRoutes.js;
  - unlisted bugs: bug controller (getBugs, getBug, createBug, updateBug,
    convertToTest) together with bugRoutes.js;
  - auth: authController.js (forgotPassword);
  - schema defaults (status pending / open, severity medium) come from the
    SQL schema file.

Database ids (UUIDs) are modelled as Nat, timestamps as Nat, and the
Supabase persistence layer as in-memory lists with first-match lookup
(single()).  Fallible persistence steps of the conversion workflow take
explicit failure flags, mirroring the error objects Supabase returns.
-/

namespace QualitySync

inductive Role where
  | PM
  | QA
  | ENG
deriving DecidableEq

inductive TestStatus where
  | pending
  | pass
  | fail
  | escalated
deriving DecidableEq

inductive BugStatus where
  | open_
  | in_progress
  | resolved
  | closed
  | converted_to_test
deriving DecidableEq

inductive Severity where
  | low
  | medium
  | high
  | critical
deriving DecidableEq

structure User where
  id : Nat
  email : String
  name : String
  role : Role
  is_verified : Bool
  reset_password_token : Option String := none
  reset_password_expires : Option Nat := none
deriving DecidableEq

structure TestCase where
  id : Nat
  module_platform : String
  test_case : String
  expected_result : String
  status : TestStatus
  evidence_url : Option String
  notes : Option String
  assigned_to : Nat
  created_by : Nat
  source_bug_id : Option Nat
  created_at : Nat
deriving DecidableEq

structure BugReport where
  id : Nat
  module_platform : String
  jam_link : String
  description : String
  note : Option String
  severity : Severity
  status : BugStatus
  created_by : Nat
  converted_to_test_id : Option Nat
  converted_at : Option Nat
deriving DecidableEq

structure Db where
  users : List User
  tests : List TestCase
  bugs : List BugReport
deriving DecidableEq

/-- Mirrors the ApiError class of the error-handler middleware. -/
structure ApiErr where
  statusCode : Nat
  message : String
deriving DecidableEq

/-- Models select().eq(id, x).single(): first row with the given id. -/
def findUser (db : Db) (uid : Nat) : Option User :=
  db.users.find? (fun u => u.id == uid)

def findTest (db : Db) (tid : Nat) : Option TestCase :=
  db.tests.find? (fun t => t.id == tid)

def findBug (db : Db) (bid : Nat) : Option BugReport :=
  db.bugs.find? (fun b => b.id == bid)

/-- The database generates a fresh UUID for an inserted row; modelled as
one more than the largest test id in the table. -/
def freshTestId (db : Db) : Nat :=
  db.tests.foldr (fun t m => max m (t.id + 1)) 0

def freshBugId (db : Db) : Nat :=
  db.bugs.foldr (fun b m => max m (b.id + 1)) 0

/-- JavaScript value-or-null coercion (x || null) applied to an optional
string field: both an omitted field and an empty string become null. -/
def orNull : Option String → Option String
  | none => none
  | some s => if s.isEmpty then none else some s

/-- Request body of POST /bugs/:id/convert. -/
structure ConvertBody where
  assigned_to : Nat
  test_case : String
  expected_result : String
deriving DecidableEq

/-- Controller convertToTest.  Fetches the bug (404 when absent), rejects an
already converted bug (400), validates that the assignee exists and is QA
(400 otherwise), inserts the derived test case (the row takes the schema
default status pending; on insert error the controller throws 500 and the
bug is untouched), then updates the bug row; the result of that update is
not checked by the source, so a failed update still yields a success
response.  The two failure flags model the Supabase error results of the
two writes. -/
def convertToTest (actor : User) (bid : Nat) (body : ConvertBody) (now : Nat)
    (insertFails updateFails : Bool) (db : Db) :
    Except ApiErr TestCase × Db :=
  match findBug db bid with
  | none => (.error ⟨404, "Bug not found"⟩, db)
  | some bug =>
    if bug.status = BugStatus.converted_to_test then
      (.error ⟨400, "This bug has already been converted to a test case"⟩, db)
    else
      match findUser db body.assigned_to with
      | none => (.error ⟨400, "Assigned user not found"⟩, db)
      | some assignee =>
        if assignee.role ≠ Role.QA then
          (.error ⟨400, "Tests can only be assigned to QA testers"⟩, db)
        else if insertFails then
          (.error ⟨500, "Failed to convert bug to test case"⟩, db)
        else
          let t : TestCase :=
            { id := freshTestId db
              module_platform := bug.module_platform
              test_case := body.test_case
              expected_result := body.expected_result
              status := TestStatus.pending
              evidence_url := some bug.jam_link
              notes := none
              assigned_to := body.assigned_to
              created_by := actor.id
              source_bug_id := some bug.id
              created_at := now }
          let db1 : Db := { db with tests := db.tests ++ [t] }
          let db2 : Db :=
            if updateFails then db1
            else
              { db1 with
                bugs := db1.bugs.map (fun b =>
                  if b.id == bid then
                    { b with
                      status := BugStatus.converted_to_test
                      converted_to_test_id := some t.id
                      converted_at := some now }
                  else b) }
          (.ok t, db2)

/-- Number of test cases derived from bug b (rows whose source_bug_id
points at b). -/
def testsFromBug (b : Nat) (db : Db) : Nat :=
  (db.tests.filter (fun t => t.source_bug_id == some b)).length

/-- Whether the bug row with id b currently has the terminal status. -/
def bugConverted (b : Nat) (db : Db) : Bool :=
  match findBug db b with
  | some bug => bug.status == BugStatus.converted_to_test
  | none => false

/-- One convert request: the acting user, its body, the clock value and the
failure outcome of the two fallible persistence writes. -/
structure ConvertCall where
  actor : User
  body : ConvertBody
  now : Nat
  insertFails : Bool
  updateFails : Bool
deriving DecidableEq

/-- Runs a sequence of convert requests against the same bug id. -/
def runConverts (b : Nat) : List ConvertCall → Db → Db
  | [], db => db
  | c :: rest, db =>
    runConverts b rest
      (convertToTest c.actor b c.body c.now c.insertFails c.updateFails db).2

/-- Request body of POST /tests. -/
structure CreateTestBody where
  module_platform : String
  test_case : String
  expected_result : String
  evidence_url : Option String
  assigned_to : Nat
deriving DecidableEq

/-- Controller createTest: validates that the assignee exists and has role
QA (note: the source does not consult is_verified), then inserts the row;
status takes the schema default pending, evidence_url gets the
value-or-null coercion. -/
def createTest (actor : User) (body : CreateTestBody) (now : Nat) (db : Db) :
    Except ApiErr TestCase × Db :=
  match findUser db body.assigned_to with
  | none => (.error ⟨400, "Assigned user not found"⟩, db)
  | some assignee =>
    if assignee.role ≠ Role.QA then
      (.error ⟨400, "Tests can only be assigned to QA testers"⟩, db)
    else
      let t : TestCase :=
        { id := freshTestId db
          module_platform := body.module_platform
          test_case := body.test_case
          expected_result := body.expected_result
          status := TestStatus.pending
          evidence_url := orNull body.evidence_url
          notes := none
          assigned_to := body.assigned_to
          created_by := actor.id
          source_bug_id := none
          created_at := now }
      (.ok t, { db with tests := db.tests ++ [t] })

/-- Request body of PUT /tests/:id/result. -/
structure ResultBody where
  status : TestStatus
  evidence_url : Option String
  notes : Option String
deriving DecidableEq

/-- Controller updateTestResult: 404 when the test is absent, 403 unless
the actor is the assignee, then an unconditional overwrite of status,
evidence_url and notes (both optional fields go through value-or-null). -/
def updateTestResult (actor : User) (tid : Nat) (body : ResultBody) (db : Db) :
    Except ApiErr TestCase × Db :=
  match findTest db tid with
  | none => (.error ⟨404, "Test case not found"⟩, db)
  | some t0 =>
    if t0.assigned_to ≠ actor.id then
      (.error ⟨403, "You can only update tests assigned to you"⟩, db)
    else
      let upd : TestCase → TestCase := fun t =>
        { t with
          status := body.status
          evidence_url := orNull body.evidence_url
          notes := orNull body.notes }
      (.ok (upd t0), { db with tests := db.tests.map (fun t => if t.id == tid then upd t else t) })

/-- JavaScript truthiness update (if (field) data.field = field): an
omitted or empty-string field leaves the stored value unchanged. -/
def truthyUpd (cur : String) : Option String → String
  | none => cur
  | some s => if s.isEmpty then cur else s

/-- Request body of PUT /tests/:id (all fields optional). -/
structure UpdateTestBody where
  module_platform : Option String := none
  test_case : Option String := none
  expected_result : Option String := none
  evidence_url : Option String := none
  assigned_to : Option Nat := none
deriving DecidableEq

/-- The updateData object built by controller updateTest: truthiness
updates for the text fields, value-or-null for evidence_url (which is
applied whenever the field is present at all), and an optional new
assignee. -/
def applyTestUpdate (body : UpdateTestBody) (newA : Option Nat) (t : TestCase) : TestCase :=
  { t with
    module_platform := truthyUpd t.module_platform body.module_platform
    test_case := truthyUpd t.test_case body.test_case
    expected_result := truthyUpd t.expected_result body.expected_result
    evidence_url :=
      match body.evidence_url with
      | none => t.evidence_url
      | some s => orNull (some s)
    assigned_to := newA.getD t.assigned_to }

/-- Controller updateTest (PM route): 404 when absent; when reassigning to
a different user the new assignee must exist and be QA; then the row is
updated. -/
def updateTest (_actor : User) (tid : Nat) (body : UpdateTestBody) (db : Db) :
    Except ApiErr TestCase × Db :=
  match findTest db tid with
  | none => (.error ⟨404, "Test case not found"⟩, db)
  | some t0 =>
    let proceed := fun (newA : Option Nat) =>
      (Except.ok (applyTestUpdate body newA t0),
        { db with tests := db.tests.map (fun t => if t.id == tid then applyTestUpdate body newA t else t) })
    match body.assigned_to with
    | none => proceed none
    | some aid =>
      if aid = t0.assigned_to then proceed none
      else
        match findUser db aid with
        | none => (.error ⟨400, "Assigned user not found"⟩, db)
        | some a =>
          if a.role ≠ Role.QA then
            (.error ⟨400, "Tests can only be assigned to QA testers"⟩, db)
          else proceed (some aid)

/-- Controller getTest: fetch by id (404 when absent), then the role-based
access checks, which answer 403 for an existing but out-of-scope row. -/
def getTest (actor : User) (tid : Nat) (db : Db) : Except ApiErr TestCase :=
  match findTest db tid with
  | none => .error ⟨404, "Test case not found"⟩
  | some t =>
    if actor.role = Role.QA ∧ t.assigned_to ≠ actor.id then
      .error ⟨403, "You do not have access to this test case"⟩
    else if actor.role = Role.ENG ∧ ¬(t.status = TestStatus.fail ∨ t.status = TestStatus.escalated) then
      .error ⟨403, "You can only view failed or escalated test cases"⟩
    else .ok t

/-- Controller getBug: fetch by id (404 when absent), then the creator
check for QA actors, answering 403 for an existing foreign bug. -/
def getBug (actor : User) (bid : Nat) (db : Db) : Except ApiErr BugReport :=
  match findBug db bid with
  | none => .error ⟨404, "Bug not found"⟩
  | some b =>
    if actor.role = Role.QA ∧ b.created_by ≠ actor.id then
      .error ⟨403, "You do not have access to this bug"⟩
    else .ok b

/-- Request body of POST /bugs. -/
structure CreateBugBody where
  module_platform : String
  jam_link : String
  description : String
  note : Option String := none
  severity : Option Severity := none
deriving DecidableEq

/-- Controller createBug: inserts the row with note via value-or-null,
severity defaulting to medium, and the schema default status open. -/
def createBug (actor : User) (body : CreateBugBody) (db : Db) :
    Except ApiErr BugReport × Db :=
  let b : BugReport :=
    { id := freshBugId db
      module_platform := body.module_platform
      jam_link := body.jam_link
      description := body.description
      note := orNull body.note
      severity := body.severity.getD Severity.medium
      status := BugStatus.open_
      created_by := actor.id
      converted_to_test_id := none
      converted_at := none }
  (.ok b, { db with bugs := db.bugs ++ [b] })

/-- Request body of PUT /bugs/:id (all fields optional). -/
structure UpdateBugBody where
  module_platform : Option String := none
  jam_link : Option String := none
  description : Option String := none
  note : Option String := none
  severity : Option Severity := none
  status : Option BugStatus := none
deriving DecidableEq

/-- The updateData object of controller updateBug: truthiness updates for
the text fields, value-or-null for note, and the status field applied only
when the actor is a PM. -/
def applyBugUpdate (actor : User) (body : UpdateBugBody) (b : BugReport) : BugReport :=
  { b with
    module_platform := truthyUpd b.module_platform body.module_platform
    jam_link := truthyUpd b.jam_link body.jam_link
    description := truthyUpd b.description body.description
    note :=
      match body.note with
      | none => b.note
      | some s => orNull (some s)
    severity := body.severity.getD b.severity
    status :=
      match body.status with
      | some s => if actor.role = Role.PM then s else b.status
      | none => b.status }

/-- Controller updateBug: 404 when absent; a QA actor may only touch bugs
they created (403) and only while not converted (400); then the update is
applied, with the status change restricted to PM actors inside
applyBugUpdate. -/
def updateBug (actor : User) (bid : Nat) (body : UpdateBugBody) (db : Db) :
    Except ApiErr BugReport × Db :=
  match findBug db bid with
  | none => (.error ⟨404, "Bug not found"⟩, db)
  | some b0 =>
    if actor.role = Role.QA ∧ b0.created_by ≠ actor.id then
      (.error ⟨403, "You can only update bugs you created"⟩, db)
    else if actor.role = Role.QA ∧ b0.status = BugStatus.converted_to_test then
      (.error ⟨400, "Cannot update a bug that has been converted to a test"⟩, db)
    else
      (Except.ok (applyBugUpdate actor body b0),
        { db with bugs := db.bugs.map (fun b => if b.id == bid then applyBugUpdate actor body b else b) })

/-- HTTP response envelope used by the auth endpoints. -/
structure AuthResponse where
  statusCode : Nat
  success : Bool
  message : String
deriving DecidableEq

def findUserByEmail (db : Db) (email : String) : Option User :=
  db.users.find? (fun u => u.email == email)

def resetMsg : String := "If an account exists, a password reset email has been sent."

/-- Controller forgotPassword: when no user matches, the generic 200 body;
when a user matches, the reset token is stored (that update result is not
checked by the source) and the reset email is sent; a failed send is
rethrown as a 500, otherwise the same generic 200 body is returned. -/
def forgotPassword (email resetToken : String) (resetExpires : Nat)
    (emailOk : Bool) (db : Db) : AuthResponse × Db :=
  match findUserByEmail db email with
  | none => (⟨200, true, resetMsg⟩, db)
  | some u =>
    let db' : Db :=
      { db with
        users := db.users.map (fun x =>
          if x.id == u.id then
            { x with
              reset_password_token := some resetToken
              reset_password_expires := some resetExpires }
          else x) }
    if emailOk then (⟨200, true, resetMsg⟩, db')
    else (⟨500, false, "Failed to send password reset email"⟩, db')

/-- JavaScript String.prototype.includes: some suffix of s starts with
pat.  Also models the SQL ilike containment used by the list filters. -/
def strContains (s pat : String) : Bool :=
  (List.range (s.length + 1)).any (fun i => pat.toList.isPrefixOf (s.toList.drop i))

/-- Narrowing query parameters of GET /tests (page, limit and ordering are
handled separately). -/
structure TestQuery where
  status : Option TestStatus := none
  module_platform : Option String := none
  search : Option String := none
deriving DecidableEq

/-- The role-based filter of controller getTests: QA sees rows assigned to
them, ENG sees failed or escalated rows, PM sees all. -/
def testVisibleToRole (actor : User) (t : TestCase) : Bool :=
  match actor.role with
  | Role.QA => t.assigned_to == actor.id
  | Role.ENG => t.status == TestStatus.fail || t.status == TestStatus.escalated
  | Role.PM => true

/-- The optional narrowing filters of controller getTests: exact status
match, ilike containment on module_platform, ilike search over test_case
or expected_result. -/
def testMatchesQuery (q : TestQuery) (t : TestCase) : Bool :=
  (match q.status with
   | some s => t.status == s
   | none => true) &&
  (match q.module_platform with
   | some m => strContains t.module_platform.toLower m.toLower
   | none => true) &&
  (match q.search with
   | some s =>
     strContains t.test_case.toLower s.toLower ||
     strContains t.expected_result.toLower s.toLower
   | none => true)

/-- The result set of the getTests query before ordering and pagination:
the role scope is always applied, conjoined with the narrowing filters. -/
def getTestsFiltered (actor : User) (q : TestQuery) (db : Db) : List TestCase :=
  db.tests.filter (fun t => testVisibleToRole actor t && testMatchesQuery q t)

/-- Stable insertion used to model the SQL ORDER BY of getTests; the
comparator stands for the selected sort field and direction. -/
def insertOrdered (le : TestCase → TestCase → Bool) (x : TestCase) :
    List TestCase → List TestCase
  | [] => [x]
  | y :: ys => if le x y then x :: y :: ys else y :: insertOrdered le x ys

def orderTests (le : TestCase → TestCase → Bool) : List TestCase → List TestCase
  | [] => []
  | x :: xs => insertOrdered le x (orderTests le xs)

/-- One page of GET /tests: the filtered, ordered rows restricted to
range(offset, offset + limit - 1) with offset = (page - 1) * limit. -/
def getTestsPage (actor : User) (q : TestQuery) (le : TestCase → TestCase → Bool)
    (page limit : Nat) (db : Db) : List TestCase :=
  ((orderTests le (getTestsFiltered actor q db)).drop ((page - 1) * limit)).take limit

def noFilters : TestQuery := {}

/- ----------------------------------------------------------------- -/
/- Route validator models (express-validator chains).  The library URL
   check (validator.js isURL) is external to the repository, so it is a
   parameter of the validators that invoke it; the jam.dev substring
   check is translated literally from the custom validators. -/

def jamDomain : String := "jam.dev"

def lenBetween (lo hi : Nat) (s : String) : Bool :=
  lo ≤ s.length && s.length ≤ hi

/-- evidence_url chain of createTestValidation / updateTestResultValidation:
optional, isURL, then the custom check that a truthy value must contain
jam.dev. -/
def evidenceFieldOk (isURL : String → Bool) : Option String → Bool
  | none => true
  | some s => isURL s && (s.isEmpty || strContains s jamDomain)

/-- evidence_url chain of the inline PUT /tests/:id validator: optional and
the custom jam.dev check only — no URL-syntax check appears in that
chain. -/
def updateTestEvidenceOk : Option String → Bool
  | none => true
  | some s => s.isEmpty || strContains s jamDomain

/-- jam_link chain of createBugValidation: notEmpty, isURL, and the custom
jam.dev containment check. -/
def jamLinkOk (isURL : String → Bool) (s : String) : Bool :=
  !s.isEmpty && isURL s && strContains s jamDomain

def optLenOk (lo hi : Nat) : Option String → Bool
  | none => true
  | some s => lenBetween lo hi s

/-- createTestValidation (assigned_to isUUID holds by typing here). -/
def createTestValidationOk (isURL : String → Bool) (b : CreateTestBody) : Bool :=
  (!b.module_platform.isEmpty && b.module_platform.length ≤ 255) &&
  (!b.test_case.isEmpty && lenBetween 5 2000 b.test_case) &&
  (!b.expected_result.isEmpty && lenBetween 5 2000 b.expected_result) &&
  evidenceFieldOk isURL b.evidence_url

/-- updateTestResultValidation. -/
def resultValidationOk (isURL : String → Bool) (b : ResultBody) : Bool :=
  (b.status == TestStatus.pass || b.status == TestStatus.fail ||
    b.status == TestStatus.escalated) &&
  evidenceFieldOk isURL b.evidence_url &&
  (match b.notes with
   | none => true
   | some s => s.length ≤ 2000)

/-- createBugValidation (severity isIn holds by typing here). -/
def createBugValidationOk (isURL : String → Bool) (b : CreateBugBody) : Bool :=
  (!b.module_platform.isEmpty && b.module_platform.length ≤ 255) &&
  jamLinkOk isURL b.jam_link &&
  (!b.description.isEmpty && lenBetween 10 2000 b.description) &&
  (match b.note with
   | none => true
   | some s => s.length ≤ 2000)

/-- Inline validator chain of PUT /tests/:id. -/
def updateTestValidationOk (b : UpdateTestBody) : Bool :=
  (match b.module_platform with
   | none => true
   | some s => s.length ≤ 255) &&
  optLenOk 5 2000 b.test_case &&
  optLenOk 5 2000 b.expected_result &&
  updateTestEvidenceOk b.evidence_url

/-- status chain of the inline PUT /bugs/:id validator: the four
non-terminal values are admitted; converted_to_test is not. -/
def bugStatusValid : Option BugStatus → Bool
  | none => true
  | some s =>
    s == BugStatus.open_ || s == BugStatus.in_progress ||
    s == BugStatus.resolved || s == BugStatus.closed

/- Route pipelines: handleValidation answers 400 before the controller
   runs, so a validation failure leaves the database untouched. -/

def postTests (isURL : String → Bool) (actor : User) (body : CreateTestBody)
    (now : Nat) (db : Db) : Except ApiErr TestCase × Db :=
  if createTestValidationOk isURL body then createTest actor body now db
  else (.error ⟨400, "Validation failed"⟩, db)

def putTestResult (isURL : String → Bool) (actor : User) (tid : Nat)
    (body : ResultBody) (db : Db) : Except ApiErr TestCase × Db :=
  if resultValidationOk isURL body then updateTestResult actor tid body db
  else (.error ⟨400, "Validation failed"⟩, db)

def postBugs (isURL : String → Bool) (actor : User) (body : CreateBugBody)
    (db : Db) : Except ApiErr BugReport × Db :=
  if createBugValidationOk isURL body then createBug actor body db
  else (.error ⟨400, "Validation failed"⟩, db)

def putTest (actor : User) (tid : Nat) (body : UpdateTestBody) (db : Db) :
    Except ApiErr TestCase × Db :=
  if updateTestValidationOk body then updateTest actor tid body db
  else (.error ⟨400, "Validation failed"⟩, db)

theorem find?_map_of_pred_comm {α : Type} (f : α → α) (p : α → Bool)
    (l : List α) (h : ∀ x, p (f x) = p x) :
    (l.map f).find? p = (l.find? p).map f := by
  induction l with
  | nil => simp
  | cons x xs ih =>
    by_cases hx : p x
    · simp [List.find?, h x, hx]
    · simp only [List.map_cons, List.find?, h x]
      rw [Bool.of_not_eq_true hx]
      simpa using ih

/-- Whether a controller outcome is a success response. -/
def succeeded {α : Type} (r : Except ApiErr α × Db) : Bool :=
  match r.1 with
  | .ok _ => true
  | .error _ => false

/- Concrete fixtures used by the witnesses and counterexamples. -/

def pmUser : User :=
  { id := 1, email := "pm@example.com", name := "Pat", role := Role.PM, is_verified := true }

def qaUser : User :=
  { id := 2, email := "qa@example.com", name := "Mike", role := Role.QA, is_verified := true }

def qaUser2 : User :=
  { id := 3, email := "qa2@example.com", name := "Lisa", role := Role.QA, is_verified := true }

def unverifiedQA : User :=
  { id := 4, email := "newqa@example.com", name := "Noor", role := Role.QA, is_verified := false }

def engUser : User :=
  { id := 5, email := "eng@example.com", name := "Eli", role := Role.ENG, is_verified := true }

def exTest : TestCase :=
  { id := 1, module_platform := "Web", test_case := "Check the login form",
    expected_result := "Login succeeds", status := TestStatus.pending,
    evidence_url := none, notes := none, assigned_to := 2, created_by := 1,
    source_bug_id := none, created_at := 0 }

def exBug : BugReport :=
  { id := 1, module_platform := "Web", jam_link := "https://jam.dev/c/abc",
    description := "Crash when saving the form", note := none,
    severity := Severity.high, status := BugStatus.open_, created_by := 2,
    converted_to_test_id := none, converted_at := none }

def convBug : BugReport :=
  { exBug with
    id := 2
    status := BugStatus.converted_to_test
    converted_to_test_id := some 9
    converted_at := some 3 }

def exDb : Db :=
  { users := [pmUser, qaUser, qaUser2, unverifiedQA, engUser],
    tests := [exTest],
    bugs := [exBug, convBug] }

def cBody : ConvertBody :=
  { assigned_to := 2, test_case := "Reproduce the crash",
    expected_result := "Saving works" }

/- ----------------------------------------------------------------- -/

theorem findTest_map_update (db : Db) (tid : Nat) (g : TestCase → TestCase)
    (hid : ∀ t, (g t).id = t.id) :
    findTest { db with tests := db.tests.map (fun t => if t.id == tid then g t else t) } tid =
      (findTest db tid).map (fun t => if t.id == tid then g t else t) := by
  unfold findTest
  exact find?_map_of_pred_comm _ _ _ (by
    intro t
    by_cases h : t.id == tid <;> simp [h, hid])

theorem findBug_map_update (db : Db) (bid : Nat) (g : BugReport → BugReport)
    (hid : ∀ b, (g b).id = b.id) :
    findBug { db with bugs := db.bugs.map (fun b => if b.id == bid then g b else b) } bid =
      (findBug db bid).map (fun b => if b.id == bid then g b else b) := by
  unfold findBug
  exact find?_map_of_pred_comm _ _ _ (by
    intro b
    by_cases h : b.id == bid <;> simp [h, hid])

/-- C10: a successful result recording overwrites status, evidence_url and
notes unconditionally; evidence_url and notes become the supplied non-empty
values and become null when omitted or empty, so previously stored values
are never preserved. -/
theorem C10_result_overwrites_evidence_and_notes
    (actor : User) (tid : Nat) (body : ResultBody) (db : Db) (t0 : TestCase)
    (hfind : findTest db tid = some t0)
    (hassignee : t0.assigned_to = actor.id) :
    (updateTestResult actor tid body db).1 =
      Except.ok { t0 with
                  status := body.status
                  evidence_url := orNull body.evidence_url
                  notes := orNull body.notes } ∧
    findTest (updateTestResult actor tid body db).2 tid =
      some { t0 with
             status := body.status
             evidence_url := orNull body.evidence_url
             notes := orNull body.notes } ∧
    (∀ o : Option String, orNull o = none ↔ o = none ∨ o = some "") := by
  have h2 : db.tests.find? (fun t => t.id == tid) = some t0 := hfind
  have hp0 := List.find?_some h2
  have hp : (t0.id == tid) = true := hp0
  refine ⟨?_, ?_, ?_⟩
  · simp [updateTestResult, hfind, hassignee]
  · simp only [updateTestResult, hfind, hassignee]
    simp only [ne_eq, not_true_eq_false, if_false]
    rw [findTest_map_update db tid
      (fun t => { t with status := body.status, evidence_url := orNull body.evidence_url, notes := orNull body.notes })
      (fun t => rfl)]
    have hp2 : t0.id = tid := by simpa using hp
    simp [hfind, hp2, hassignee]
  · intro o
    cases o with
    | none => simp [orNull]
    | some s =>
      rcases eq_or_ne s "" with h | h
      · subst h
        simp [show orNull (some "") = none from rfl]
      · have hs : s.isEmpty = false := by
          cases hv : s.isEmpty
          · rfl
          · exact absurd ((String.isEmpty_iff s).mp hv) h
        simp [orNull, hs, h]

/-- C10 witness: concrete successful recording where supplied non-empty
evidence is stored and empty notes are cleared. -/
theorem C10_result_overwrites_evidence_and_notes_witness :
    (updateTestResult qaUser 1
        { status := TestStatus.fail, evidence_url := some "https://jam.dev/c/x", notes := some "" }
        exDb).1 =
      Except.ok { exTest with
                  status := TestStatus.fail
                  evidence_url := orNull (some "https://jam.dev/c/x")
                  notes := orNull (some "") } ∧
    findTest (updateTestResult qaUser 1
        { status := TestStatus.fail, evidence_url := some "https://jam.dev/c/x", notes := some "" }
        exDb).2 1 =
      some { exTest with
             status := TestStatus.fail
             evidence_url := orNull (some "https://jam.dev/c/x")
             notes := orNull (some "") } ∧
    (orNull (some "") = none ↔ (some "" : Option String) = none ∨ (some "" : Option String) = some "") := by
  have h := C10_result_overwrites_evidence_and_notes qaUser 1
    { status := TestStatus.fail, evidence_url := some "https://jam.dev/c/x", notes := some "" }
    exDb exTest (by decide) (by decide)
  exact ⟨h.1, h.2.1, h.2.2 (some "")⟩

def ctBody4 : CreateTestBody :=
  { module_platform := "Web", test_case := "Verify the crash",
    expected_result := "No crash", evidence_url := none, assigned_to := 4 }

def ctMissing : CreateTestBody := { ctBody4 with assigned_to := 99 }

def ctEng : CreateTestBody := { ctBody4 with assigned_to := 5 }

def ctBodyQA : CreateTestBody := { ctBody4 with assigned_to := 2 }

def cvMissing : ConvertBody := { cBody with assigned_to := 99 }

def cvEng : ConvertBody := { cBody with assigned_to := 5 }

/-- C4 counterexample: POST /tests accepts an assignee that resolves to an
unverified QA user; the call succeeds instead of failing with BadRequest,
refuting the claim that an unverified QA assignee is rejected. -/
theorem C4_counterexample_unverified_assignee_accepted :
    findUser exDb ctBody4.assigned_to = some unverifiedQA ∧
    unverifiedQA.role = Role.QA ∧
    unverifiedQA.is_verified = false ∧
    succeeded (createTest pmUser ctBody4 7 exDb) = true := by
  refine ⟨by decide, rfl, rfl, by decide⟩

/-- C4 (amended): both POST /tests and POST /bugs/:id/convert fail with
BadRequest whenever assigned_to does not resolve to an existing user whose
role is QA, but the verification flag of the assignee is never consulted:
any user with role QA is accepted. -/
theorem C4_assignee_role_checked_not_verification :
    (∀ (db : Db) (actor : User) (body : CreateTestBody) (now : Nat),
       findUser db body.assigned_to = none →
       createTest actor body now db = (.error ⟨400, "Assigned user not found"⟩, db)) ∧
    (∀ (db : Db) (actor : User) (body : CreateTestBody) (now : Nat) (a : User),
       findUser db body.assigned_to = some a → a.role ≠ Role.QA →
       createTest actor body now db = (.error ⟨400, "Tests can only be assigned to QA testers"⟩, db)) ∧
    (∀ (db : Db) (actor : User) (body : CreateTestBody) (now : Nat) (a : User),
       findUser db body.assigned_to = some a → a.role = Role.QA →
       succeeded (createTest actor body now db) = true) ∧
    (∀ (db : Db) (actor : User) (bid : Nat) (body : ConvertBody) (now : Nat)
       (insF updF : Bool) (bug : BugReport),
       findBug db bid = some bug → bug.status ≠ BugStatus.converted_to_test →
       findUser db body.assigned_to = none →
       convertToTest actor bid body now insF updF db =
         (.error ⟨400, "Assigned user not found"⟩, db)) ∧
    (∀ (db : Db) (actor : User) (bid : Nat) (body : ConvertBody) (now : Nat)
       (insF updF : Bool) (bug : BugReport) (a : User),
       findBug db bid = some bug → bug.status ≠ BugStatus.converted_to_test →
       findUser db body.assigned_to = some a → a.role ≠ Role.QA →
       convertToTest actor bid body now insF updF db =
         (.error ⟨400, "Tests can only be assigned to QA testers"⟩, db)) := by
  refine ⟨?_, ?_, ?_, ?_, ?_⟩
  · intro db actor body now h
    simp [createTest, h]
  · intro db actor body now a h1 h2
    simp [createTest, h1, h2]
  · intro db actor body now a h1 h2
    simp [createTest, succeeded, h1, h2]
  · intro db actor bid body now insF updF bug h1 h2 h3
    simp [convertToTest, h1, h2, h3]
  · intro db actor bid body now insF updF bug a h1 h2 h3 h4
    simp [convertToTest, h1, h2, h3, h4]

/-- C4 witness: the amended claim evaluated on the concrete fixture. -/
theorem C4_assignee_role_checked_not_verification_witness :
    createTest pmUser ctMissing 7 exDb = (.error ⟨400, "Assigned user not found"⟩, exDb) ∧
    createTest pmUser ctEng 7 exDb = (.error ⟨400, "Tests can only be assigned to QA testers"⟩, exDb) ∧
    succeeded (createTest pmUser ctBodyQA 7 exDb) = true ∧
    convertToTest pmUser 1 cvMissing 7 false false exDb = (.error ⟨400, "Assigned user not found"⟩, exDb) ∧
    convertToTest pmUser 1 cvEng 7 false false exDb = (.error ⟨400, "Tests can only be assigned to QA testers"⟩, exDb) :=
  ⟨C4_assignee_role_checked_not_verification.1 exDb pmUser ctMissing 7 (by decide),
   C4_assignee_role_checked_not_verification.2.1 exDb pmUser ctEng 7 engUser (by decide) (by decide),
   C4_assignee_role_checked_not_verification.2.2.1 exDb pmUser ctBodyQA 7 qaUser (by decide) (by decide),
   C4_assignee_role_checked_not_verification.2.2.2.1 exDb pmUser 1 cvMissing 7 false false exBug
     (by decide) (by decide) (by decide),
   C4_assignee_role_checked_not_verification.2.2.2.2 exDb pmUser 1 cvEng 7 false false exBug engUser
     (by decide) (by decide) (by decide) (by decide)⟩

/-- C6 counterexample: a QA user fetching an existing test case assigned to
another user receives 403 with a distinctive message, while a missing id
yields 404; the two responses are distinguishable, refuting the claim that
a non-owner read is answered with NotFound. -/
theorem C6_counterexample_nonowner_read_is_403 :
    getTest qaUser2 1 exDb = .error ⟨403, "You do not have access to this test case"⟩ ∧
    getTest qaUser2 42 exDb = .error ⟨404, "Test case not found"⟩ :=
  ⟨rfl, rfl⟩

/-- C6 (amended): an authenticated non-owner read of an existing resource
is answered with 403 Forbidden carrying a scope-specific message (QA
non-assignee on a test, ENG on a test outside fail or escalated, QA
non-creator on a bug), while only a truly absent id yields 404; existence
is therefore leaked. -/
theorem C6_scope_denial_is_403_not_404 :
    (∀ (db : Db) (actor : User) (tid : Nat),
       findTest db tid = none → getTest actor tid db = .error ⟨404, "Test case not found"⟩) ∧
    (∀ (db : Db) (actor : User) (tid : Nat) (t : TestCase),
       findTest db tid = some t → actor.role = Role.QA → t.assigned_to ≠ actor.id →
       getTest actor tid db = .error ⟨403, "You do not have access to this test case"⟩) ∧
    (∀ (db : Db) (actor : User) (tid : Nat) (t : TestCase),
       findTest db tid = some t → actor.role = Role.ENG →
       t.status ≠ TestStatus.fail → t.status ≠ TestStatus.escalated →
       getTest actor tid db = .error ⟨403, "You can only view failed or escalated test cases"⟩) ∧
    (∀ (db : Db) (actor : User) (bid : Nat),
       findBug db bid = none → getBug actor bid db = .error ⟨404, "Bug not found"⟩) ∧
    (∀ (db : Db) (actor : User) (bid : Nat) (b : BugReport),
       findBug db bid = some b → actor.role = Role.QA → b.created_by ≠ actor.id →
       getBug actor bid db = .error ⟨403, "You do not have access to this bug"⟩) := by
  refine ⟨?_, ?_, ?_, ?_, ?_⟩
  · intro db actor tid h
    simp [getTest, h]
  · intro db actor tid t h1 h2 h3
    simp [getTest, h1, h2, h3]
  · intro db actor tid t h1 h2 h3 h4
    simp [getTest, h1, h2, h3, h4]
  · intro db actor bid h
    simp [getBug, h]
  · intro db actor bid b h1 h2 h3
    simp [getBug, h1, h2, h3]

/-- C6 witness: the amended claim evaluated on the concrete fixture. -/
theorem C6_scope_denial_is_403_not_404_witness :
    getTest qaUser 42 exDb = .error ⟨404, "Test case not found"⟩ ∧
    getTest qaUser2 1 exDb = .error ⟨403, "You do not have access to this test case"⟩ ∧
    getTest engUser 1 exDb = .error ⟨403, "You can only view failed or escalated test cases"⟩ ∧
    getBug engUser 42 exDb = .error ⟨404, "Bug not found"⟩ ∧
    getBug qaUser2 1 exDb = .error ⟨403, "You do not have access to this bug"⟩ :=
  ⟨C6_scope_denial_is_403_not_404.1 exDb qaUser 42 (by decide),
   C6_scope_denial_is_403_not_404.2.1 exDb qaUser2 1 exTest (by decide) rfl (by decide),
   C6_scope_denial_is_403_not_404.2.2.1 exDb engUser 1 exTest (by decide) rfl (by decide) (by decide),
   C6_scope_denial_is_403_not_404.2.2.2.1 exDb engUser 42 (by decide),
   C6_scope_denial_is_403_not_404.2.2.2.2 exDb qaUser2 1 exBug (by decide) rfl (by decide)⟩

theorem findBug_id_eq {db : Db} {bid : Nat} {b0 : BugReport}
    (h : findBug db bid = some b0) : (b0.id == bid) = true := by
  have h2 : db.bugs.find? (fun b => b.id == bid) = some b0 := h
  have h3 := List.find?_some h2
  exact h3

theorem findTest_id_eq {db : Db} {tid : Nat} {t0 : TestCase}
    (h : findTest db tid = some t0) : (t0.id == tid) = true := by
  have h2 : db.tests.find? (fun t => t.id == tid) = some t0 := h
  have h3 := List.find?_some h2
  exact h3

/-- The status of the bug row with the given id, when present. -/
def bugStatusAt (db : Db) (bid : Nat) : Option BugStatus :=
  (findBug db bid).map (fun b => b.status)

def exPutOpen : UpdateBugBody := { status := some BugStatus.open_ }

/-- C5 counterexample: on a bug whose status is converted_to_test, a PM
call to PUT /bugs/:id with status open passes the route validator and
changes the stored status to open, refuting the claim that no actor can
change the status of a converted bug. -/
theorem C5_counterexample_pm_reopens_converted_bug :
    bugStatusAt exDb 2 = some BugStatus.converted_to_test ∧
    bugStatusValid exPutOpen.status = true ∧
    succeeded (updateBug pmUser 2 exPutOpen exDb) = true ∧
    bugStatusAt (updateBug pmUser 2 exPutOpen exDb).2 2 = some BugStatus.open_ := by
  decide

/-- C5 (amended): once a bug is converted_to_test, the creating QA can no
longer update it at all (400), and no non-PM request changes its status;
but a PM request carrying a status field does change the stored status to
the supplied value, and the route validator admits exactly the four
non-terminal statuses, so the terminal state is enforced only against
non-PM actors. -/
theorem C5_converted_terminal_only_for_non_pm :
    (∀ (db : Db) (actor : User) (bid : Nat) (body : UpdateBugBody) (b0 : BugReport),
       findBug db bid = some b0 → b0.status = BugStatus.converted_to_test →
       actor.role = Role.QA → b0.created_by = actor.id →
       updateBug actor bid body db =
         (.error ⟨400, "Cannot update a bug that has been converted to a test"⟩, db)) ∧
    (∀ (db : Db) (actor : User) (bid : Nat) (body : UpdateBugBody),
       actor.role ≠ Role.PM →
       bugStatusAt (updateBug actor bid body db).2 bid = bugStatusAt db bid) ∧
    (∀ (db : Db) (actor : User) (bid : Nat) (body : UpdateBugBody) (b0 : BugReport) (v : BugStatus),
       actor.role = Role.PM → findBug db bid = some b0 → body.status = some v →
       bugStatusAt (updateBug actor bid body db).2 bid = some v) ∧
    bugStatusValid (some BugStatus.converted_to_test) = false := by
  refine ⟨?_, ?_, ?_, rfl⟩
  · intro db actor bid body b0 h1 h2 h3 h4
    simp [updateBug, h1, h2, h3, h4]
  · intro db actor bid body hrole
    cases hfind : findBug db bid with
    | none => simp [updateBug, hfind, bugStatusAt]
    | some b0 =>
      have hid : (b0.id == bid) = true := findBug_id_eq hfind
      have hid2 : b0.id = bid := by simpa using hid
      by_cases hq1 : actor.role = Role.QA ∧ b0.created_by ≠ actor.id
      · simp only [updateBug, hfind]
        rw [if_pos hq1]
      · by_cases hq2 : actor.role = Role.QA ∧ b0.status = BugStatus.converted_to_test
        · simp only [updateBug, hfind]
          rw [if_neg hq1, if_pos hq2]
        · simp only [updateBug, hfind]
          rw [if_neg hq1, if_neg hq2]
          unfold bugStatusAt
          rw [findBug_map_update db bid (applyBugUpdate actor body) (fun b => rfl)]
          rw [hfind]
          cases hbs : body.status with
          | none => simp [applyBugUpdate, hbs, hid2]
          | some s => simp [applyBugUpdate, hbs, hrole, hid2]
  · intro db actor bid body b0 v hrole hfind hbs
    have hid : (b0.id == bid) = true := findBug_id_eq hfind
    have hq1 : ¬(actor.role = Role.QA ∧ b0.created_by ≠ actor.id) := by
      simp [hrole]
    have hq2 : ¬(actor.role = Role.QA ∧ b0.status = BugStatus.converted_to_test) := by
      simp [hrole]
    have hid2 : b0.id = bid := by simpa using hid
    simp only [updateBug, hfind]
    rw [if_neg hq1, if_neg hq2]
    unfold bugStatusAt
    rw [findBug_map_update db bid (applyBugUpdate actor body) (fun b => rfl)]
    rw [hfind]
    simp [applyBugUpdate, hbs, hrole, hid2]

/-- C5 witness: the amended claim evaluated on the concrete fixture. -/
theorem C5_converted_terminal_only_for_non_pm_witness :
    updateBug qaUser 2 exPutOpen exDb =
      (.error ⟨400, "Cannot update a bug that has been converted to a test"⟩, exDb) ∧
    bugStatusAt (updateBug engUser 2 exPutOpen exDb).2 2 = bugStatusAt exDb 2 ∧
    bugStatusAt (updateBug pmUser 2 exPutOpen exDb).2 2 = some BugStatus.open_ :=
  ⟨C5_converted_terminal_only_for_non_pm.1 exDb qaUser 2 exPutOpen convBug
     (by decide) rfl rfl (by decide),
   C5_converted_terminal_only_for_non_pm.2.1 exDb engUser 2 exPutOpen (by decide),
   C5_converted_terminal_only_for_non_pm.2.2.1 exDb pmUser 2 exPutOpen convBug BugStatus.open_
     rfl (by decide) rfl⟩

def exToken : String := "tok-123"

def ghostEmail : String := "nobody@example.com"

/-- C8 counterexample: when the reset-email dispatch fails, the response is
500 for an existing account but 200 for an unknown one, so the caller can
learn account existence, refuting the claim that every input email gets
the same 200 response. -/
theorem C8_counterexample_email_failure_leaks_existence :
    (findUserByEmail exDb pmUser.email).isSome = true ∧
    (forgotPassword pmUser.email exToken 9 false exDb).1.statusCode = 500 ∧
    (findUserByEmail exDb ghostEmail).isSome = false ∧
    (forgotPassword ghostEmail exToken 9 false exDb).1.statusCode = 200 := by
  decide

/-- C8 (amended): POST /auth/forgot-password returns the one fixed 200 body
whenever the reset-email dispatch succeeds, and always when no account
matches; only an email-dispatch failure on an existing account breaks the
uniformity (with a 500). -/
theorem C8_forgot_password_uniform_response
    (db : Db) (email tok : String) (expiry : Nat) (emailOk : Bool)
    (h : emailOk = true ∨ findUserByEmail db email = none) :
    (forgotPassword email tok expiry emailOk db).1 = ⟨200, true, resetMsg⟩ := by
  cases hf : findUserByEmail db email with
  | none => simp [forgotPassword, hf]
  | some u =>
    rcases h with he | hn
    · simp [forgotPassword, hf, he]
    · rw [hf] at hn
      cases hn

/-- C8 witness: the uniform 200 body on the concrete fixture, both for an
unknown email and for an existing account with working dispatch. -/
theorem C8_forgot_password_uniform_response_witness :
    (forgotPassword ghostEmail exToken 9 false exDb).1 = ⟨200, true, resetMsg⟩ ∧
    (forgotPassword pmUser.email exToken 9 true exDb).1 = ⟨200, true, resetMsg⟩ :=
  ⟨C8_forgot_password_uniform_response exDb ghostEmail exToken 9 false (Or.inr (by decide)),
   C8_forgot_password_uniform_response exDb pmUser.email exToken 9 true (Or.inl rfl)⟩

/-- C2: the insert-failure direction of the claim holds (the bug keeps its
status), but when the bug-status update of step 4 fails after the test
insert of step 3 succeeded, the controller ignores the failed update and
returns a success response, leaving an unconverted bug (status open)
coexisting with a derived test case pointing at it — the state the claim
forbids. -/
theorem C2_convert_atomicity_violated :
    convertToTest pmUser 1 cBody 5 true false exDb =
      (.error ⟨500, "Failed to convert bug to test case"⟩, exDb) ∧
    succeeded (convertToTest pmUser 1 cBody 5 false true exDb) = true ∧
    bugStatusAt (convertToTest pmUser 1 cBody 5 false true exDb).2 1 = some BugStatus.open_ ∧
    testsFromBug 1 (convertToTest pmUser 1 cBody 5 false true exDb).2 = 1 ∧
    testsFromBug 1 exDb = 0 := by
  refine ⟨rfl, by decide, by decide, by decide, by decide⟩

/-- The test case row inserted by a successful conversion (step 3). -/
def convNewTest (actor : User) (body : ConvertBody) (now : Nat)
    (bug : BugReport) (db : Db) : TestCase :=
  { id := freshTestId db
    module_platform := bug.module_platform
    test_case := body.test_case
    expected_result := body.expected_result
    status := TestStatus.pending
    evidence_url := some bug.jam_link
    notes := none
    assigned_to := body.assigned_to
    created_by := actor.id
    source_bug_id := some bug.id
    created_at := now }

/-- The bug row update applied by a successful conversion (step 4). -/
def convBugUpd (tid now : Nat) (b : BugReport) : BugReport :=
  { b with
    status := BugStatus.converted_to_test
    converted_to_test_id := some tid
    converted_at := some now }

theorem convertToTest_success_eq (db : Db) (actor : User) (bid : Nat)
    (body : ConvertBody) (now : Nat) (bug : BugReport) (a : User)
    (hbug : findBug db bid = some bug)
    (hst : bug.status ≠ BugStatus.converted_to_test)
    (ha : findUser db body.assigned_to = some a)
    (hrole : a.role = Role.QA) :
    convertToTest actor bid body now false false db =
      (.ok (convNewTest actor body now bug db),
        { db with
          tests := db.tests ++ [convNewTest actor body now bug db]
          bugs := db.bugs.map (fun b =>
            if b.id == bid then convBugUpd (convNewTest actor body now bug db).id now b
            else b) }) := by
  simp only [convertToTest, hbug]
  rw [if_neg hst]
  simp only [ha]
  rw [if_neg (by simp [hrole])]
  rfl

/-- C3: a successful conversion creates a test case whose module_platform
and evidence_url are copied from the bug (jam_link), with status pending,
source_bug_id pointing back at the bug, created_by the acting PM and
assigned_to the requested assignee; and the bug row ends converted, with
converted_to_test_id the new test id and converted_at set. -/
theorem C3_convert_copies_bug_fields
    (db : Db) (actor : User) (bid : Nat) (body : ConvertBody) (now : Nat)
    (bug : BugReport) (a : User)
    (hbug : findBug db bid = some bug)
    (hst : bug.status ≠ BugStatus.converted_to_test)
    (ha : findUser db body.assigned_to = some a)
    (hrole : a.role = Role.QA) :
    ∃ t db', convertToTest actor bid body now false false db = (.ok t, db') ∧
      t.module_platform = bug.module_platform ∧
      t.evidence_url = some bug.jam_link ∧
      t.status = TestStatus.pending ∧
      t.source_bug_id = some bug.id ∧
      t.created_by = actor.id ∧
      t.assigned_to = body.assigned_to ∧
      ∃ bug', findBug db' bid = some bug' ∧
        bug'.status = BugStatus.converted_to_test ∧
        bug'.converted_to_test_id = some t.id ∧
        bug'.converted_at = some now := by
  have heq := convertToTest_success_eq db actor bid body now bug a hbug hst ha hrole
  have hid : (bug.id == bid) = true := findBug_id_eq hbug
  refine ⟨convNewTest actor body now bug db, _, heq, rfl, rfl, rfl, rfl, rfl, rfl,
    convBugUpd (convNewTest actor body now bug db).id now bug, ?_, rfl, rfl, rfl⟩
  have hpc : ∀ b : BugReport,
      (((fun x => if x.id == bid then convBugUpd (convNewTest actor body now bug db).id now x else x) b).id == bid) =
        (b.id == bid) := by
    intro b
    by_cases h : (b.id == bid) = true <;> simp [h, convBugUpd]
  show (db.bugs.map (fun x =>
      if x.id == bid then convBugUpd (convNewTest actor body now bug db).id now x else x)).find?
      (fun x => x.id == bid) = some (convBugUpd (convNewTest actor body now bug db).id now bug)
  rw [find?_map_of_pred_comm _ _ _ hpc]
  rw [show db.bugs.find? (fun x => x.id == bid) = some bug from hbug]
  have hid2 : bug.id = bid := by simpa using hid
  simp [hid2]

/-- C3 witness: a concrete successful conversion on the fixture. -/
theorem C3_convert_copies_bug_fields_witness :
    ∃ t db', convertToTest pmUser 1 cBody 5 false false exDb = (.ok t, db') ∧
      t.module_platform = exBug.module_platform ∧
      t.evidence_url = some exBug.jam_link ∧
      t.status = TestStatus.pending ∧
      t.source_bug_id = some exBug.id ∧
      t.created_by = pmUser.id ∧
      t.assigned_to = cBody.assigned_to ∧
      ∃ bug', findBug db' 1 = some bug' ∧
        bug'.status = BugStatus.converted_to_test ∧
        bug'.converted_to_test_id = some t.id ∧
        bug'.converted_at = some 5 :=
  C3_convert_copies_bug_fields exDb pmUser 1 cBody 5 exBug qaUser
    (by decide) (by decide) (by decide) rfl

/-- Potential of a database state with respect to bug b: the number of
derived tests plus one while the bug is still unconverted.  A failure-free
convert call never increases it. -/
def convMeasure (b : Nat) (db : Db) : Nat :=
  testsFromBug b db + (if bugConverted b db then 0 else 1)

theorem convert_step_measure (b : Nat) (actor : User) (body : ConvertBody)
    (now : Nat) (db : Db) :
    convMeasure b (convertToTest actor b body now false false db).2 ≤ convMeasure b db := by
  cases hbug : findBug db b with
  | none => simp [convertToTest, hbug]
  | some bug =>
    by_cases hst : bug.status = BugStatus.converted_to_test
    · simp [convertToTest, hbug, hst]
    · cases ha : findUser db body.assigned_to with
      | none =>
        simp only [convertToTest, hbug]
        rw [if_neg hst]
        simp [ha]
      | some a =>
        by_cases hrole : a.role = Role.QA
        · rw [convertToTest_success_eq db actor b body now bug a hbug hst ha hrole]
          have hid2 : bug.id = b := by simpa using findBug_id_eq hbug
          have htests :
              testsFromBug b
                { db with
                  tests := db.tests ++ [convNewTest actor body now bug db]
                  bugs := db.bugs.map (fun x =>
                    if x.id == b then convBugUpd (convNewTest actor body now bug db).id now x
                    else x) } = testsFromBug b db + 1 := by
            unfold testsFromBug
            show (List.filter _ (db.tests ++ [convNewTest actor body now bug db])).length = _
            rw [List.filter_append]
            simp [convNewTest, hid2]
          have hpc : ∀ x : BugReport,
              (((fun x => if x.id == b then convBugUpd (convNewTest actor body now bug db).id now x else x) x).id == b) =
                (x.id == b) := by
            intro x
            by_cases h : (x.id == b) = true <;> simp [h, convBugUpd]
          have hconvAfter :
              bugConverted b
                { db with
                  tests := db.tests ++ [convNewTest actor body now bug db]
                  bugs := db.bugs.map (fun x =>
                    if x.id == b then convBugUpd (convNewTest actor body now bug db).id now x
                    else x) } = true := by
            unfold bugConverted
            have hfind :
                findBug
                  { db with
                    tests := db.tests ++ [convNewTest actor body now bug db]
                    bugs := db.bugs.map (fun x =>
                      if x.id == b then convBugUpd (convNewTest actor body now bug db).id now x
                      else x) } b =
                  some (convBugUpd (convNewTest actor body now bug db).id now bug) := by
              show (db.bugs.map (fun x =>
                  if x.id == b then convBugUpd (convNewTest actor body now bug db).id now x
                  else x)).find? (fun x => x.id == b) =
                some (convBugUpd (convNewTest actor body now bug db).id now bug)
              rw [find?_map_of_pred_comm _ _ _ hpc]
              rw [show db.bugs.find? (fun x => x.id == b) = some bug from hbug]
              simp [hid2]
            rw [hfind]
            simp [convBugUpd]
          have hconvBefore : bugConverted b db = false := by
            unfold bugConverted
            rw [hbug]
            simp [hst]
          unfold convMeasure
          rw [htests, hconvAfter, hconvBefore]
          simp
        · simp only [convertToTest, hbug]
          rw [if_neg hst]
          simp only [ha]
          rw [if_pos hrole]

theorem runConverts_measure (b : Nat) (calls : List ConvertCall) (db : Db)
    (h : ∀ c ∈ calls, c.insertFails = false ∧ c.updateFails = false) :
    convMeasure b (runConverts b calls db) ≤ convMeasure b db := by
  induction calls generalizing db with
  | nil => simp [runConverts]
  | cons c rest ih =>
    have hc := h c (by simp)
    have hrest : ∀ x ∈ rest, x.insertFails = false ∧ x.updateFails = false :=
      fun x hx => h x (by simp [hx])
    simp only [runConverts]
    refine le_trans (ih _ hrest) ?_
    rw [hc.1, hc.2]
    exact convert_step_measure b c.actor c.body c.now db

/-- C1: a convert call on a bug already in status converted_to_test fails
with 400 and leaves the state unchanged (for any failure behaviour of the
later writes, since the guard fires first); and along any failure-free
sequence of convert calls on the same bug id, at most one derived test
case is ever created. -/
theorem C1_convert_exactly_once (b : Nat) (db0 : Db) (calls : List ConvertCall)
    (hnf : ∀ c ∈ calls, c.insertFails = false ∧ c.updateFails = false) :
    (∀ (db : Db) (actor : User) (body : ConvertBody) (now : Nat) (insF updF : Bool),
       bugConverted b db = true →
       convertToTest actor b body now insF updF db =
         (.error ⟨400, "This bug has already been converted to a test case"⟩, db)) ∧
    testsFromBug b (runConverts b calls db0) ≤ testsFromBug b db0 + 1 := by
  constructor
  · intro db actor body now insF updF hconv
    unfold bugConverted at hconv
    cases hbug : findBug db b with
    | none => rw [hbug] at hconv; cases hconv
    | some bug =>
      rw [hbug] at hconv
      have hst : bug.status = BugStatus.converted_to_test := by simpa using hconv
      simp [convertToTest, hbug, hst]
  · have hm := runConverts_measure b calls db0 hnf
    have h1 : testsFromBug b (runConverts b calls db0) ≤
        convMeasure b (runConverts b calls db0) := Nat.le_add_right _ _
    have h2 : convMeasure b db0 ≤ testsFromBug b db0 + 1 := by
      unfold convMeasure
      by_cases hc : bugConverted b db0 = true <;> simp [hc]
    exact le_trans h1 (le_trans hm h2)

def cc1 : ConvertCall := ⟨pmUser, cBody, 5, false, false⟩

def cc2 : ConvertCall := ⟨pmUser, cBody, 6, false, false⟩

/-- C1 witness: the guard on the concrete converted bug, and the bound on a
concrete two-call failure-free trace. -/
theorem C1_convert_exactly_once_witness :
    convertToTest pmUser 2 cBody 5 false false exDb =
      (.error ⟨400, "This bug has already been converted to a test case"⟩, exDb) ∧
    testsFromBug 1 (runConverts 1 [cc1, cc2] exDb) ≤ testsFromBug 1 exDb + 1 :=
  ⟨(C1_convert_exactly_once 2 exDb [] (by simp)).1 exDb pmUser cBody 5 false false (by decide),
   (C1_convert_exactly_once 1 exDb [cc1, cc2] (by decide)).2⟩

def badUrl : String := "not a url jam.dev"

def exPutBody9 : UpdateTestBody := { evidence_url := some badUrl }

/-- C9 counterexample: the PUT /tests/:id validator has no URL-syntax
check, so a syntactically invalid evidence link that merely contains the
jam.dev substring passes validation, reaches the controller and is
persisted, refuting the claim that every evidence-bearing write rejects a
non-URL value with a 400 before any lifecycle logic. -/
theorem C9_counterexample_update_test_skips_url_syntax :
    strContains badUrl jamDomain = true ∧
    updateTestValidationOk exPutBody9 = true ∧
    succeeded (putTest pmUser 1 exPutBody9 exDb) = true ∧
    (findTest (putTest pmUser 1 exPutBody9 exDb).2 1).map (fun t => t.evidence_url) =
      some (some badUrl) := by
  decide

/-- C9 (amended): create-test, record-result and create-bug reject a
supplied evidence link that fails the library URL check or lacks the
jam.dev substring, with a 400 and an untouched database, before the
controller runs; update-test checks only the jam.dev substring (any string
containing it passes), so the URL-syntax half of the contract does not
hold there. -/
theorem C9_evidence_checks_amended :
    (∀ (isURL : String → Bool) (actor : User) (body : CreateTestBody) (now : Nat) (db : Db) (v : String),
       body.evidence_url = some v → v.isEmpty = false →
       (isURL v = false ∨ strContains v jamDomain = false) →
       postTests isURL actor body now db = (.error ⟨400, "Validation failed"⟩, db)) ∧
    (∀ (isURL : String → Bool) (actor : User) (tid : Nat) (body : ResultBody) (db : Db) (v : String),
       body.evidence_url = some v → v.isEmpty = false →
       (isURL v = false ∨ strContains v jamDomain = false) →
       putTestResult isURL actor tid body db = (.error ⟨400, "Validation failed"⟩, db)) ∧
    (∀ (isURL : String → Bool) (actor : User) (body : CreateBugBody) (db : Db),
       (isURL body.jam_link = false ∨ strContains body.jam_link jamDomain = false) →
       postBugs isURL actor body db = (.error ⟨400, "Validation failed"⟩, db)) ∧
    (∀ (actor : User) (tid : Nat) (body : UpdateTestBody) (db : Db) (v : String),
       body.evidence_url = some v → v.isEmpty = false →
       strContains v jamDomain = false →
       putTest actor tid body db = (.error ⟨400, "Validation failed"⟩, db)) ∧
    (∀ v : String, strContains v jamDomain = true → updateTestEvidenceOk (some v) = true) := by
  refine ⟨?_, ?_, ?_, ?_, ?_⟩
  · intro isURL actor body now db v hb hne hbad
    have hev : evidenceFieldOk isURL body.evidence_url = false := by
      rw [hb]
      rcases hbad with h | h <;> simp [evidenceFieldOk, h, hne]
    have hval : createTestValidationOk isURL body = false := by
      simp [createTestValidationOk, hev]
    simp [postTests, hval]
  · intro isURL actor tid body db v hb hne hbad
    have hev : evidenceFieldOk isURL body.evidence_url = false := by
      rw [hb]
      rcases hbad with h | h <;> simp [evidenceFieldOk, h, hne]
    have hval : resultValidationOk isURL body = false := by
      simp [resultValidationOk, hev]
    simp [putTestResult, hval]
  · intro isURL actor body db hbad
    have hjl : jamLinkOk isURL body.jam_link = false := by
      rcases hbad with h | h <;> simp [jamLinkOk, h]
    have hval : createBugValidationOk isURL body = false := by
      simp [createBugValidationOk, hjl]
    simp [postBugs, hval]
  · intro actor tid body db v hb hne hbad
    have hev : updateTestEvidenceOk body.evidence_url = false := by
      rw [hb]
      simp [updateTestEvidenceOk, hbad, hne]
    have hval : updateTestValidationOk body = false := by
      simp [updateTestValidationOk, hev]
    simp [putTest, hval]
  · intro v h
    simp [updateTestEvidenceOk, h]

def neverURL : String → Bool := fun _ => false

def ctBody9 : CreateTestBody :=
  { module_platform := "Web", test_case := "check", expected_result := "works",
    evidence_url := some "x", assigned_to := 2 }

def resBody9 : ResultBody :=
  { status := TestStatus.pass, evidence_url := some "x", notes := none }

def cbBody9 : CreateBugBody :=
  { module_platform := "Web", jam_link := "x", description := "it crashes badly" }

def exPutBody9b : UpdateTestBody := { evidence_url := some "nolink" }

/-- C9 witness: the amended claim evaluated on concrete requests. -/
theorem C9_evidence_checks_amended_witness :
    postTests neverURL pmUser ctBody9 7 exDb = (.error ⟨400, "Validation failed"⟩, exDb) ∧
    putTestResult neverURL qaUser 1 resBody9 exDb = (.error ⟨400, "Validation failed"⟩, exDb) ∧
    postBugs neverURL qaUser cbBody9 exDb = (.error ⟨400, "Validation failed"⟩, exDb) ∧
    putTest pmUser 1 exPutBody9b exDb = (.error ⟨400, "Validation failed"⟩, exDb) ∧
    updateTestEvidenceOk (some badUrl) = true :=
  ⟨C9_evidence_checks_amended.1 neverURL pmUser ctBody9 7 exDb "x" rfl (by decide) (Or.inl rfl),
   C9_evidence_checks_amended.2.1 neverURL qaUser 1 resBody9 exDb "x" rfl (by decide) (Or.inl rfl),
   C9_evidence_checks_amended.2.2.1 neverURL qaUser cbBody9 exDb (Or.inl rfl),
   C9_evidence_checks_amended.2.2.2.1 pmUser 1 exPutBody9b exDb "nolink" rfl (by decide) (by decide),
   C9_evidence_checks_amended.2.2.2.2 badUrl (by decide)⟩

theorem mem_insertOrdered (le : TestCase → TestCase → Bool) (x a : TestCase)
    (l : List TestCase) : a ∈ insertOrdered le x l ↔ a = x ∨ a ∈ l := by
  induction l with
  | nil => simp [insertOrdered]
  | cons y ys ih =>
    by_cases h : le x y
    · simp [insertOrdered, h]
    · simp [insertOrdered, h, ih, or_left_comm]

theorem mem_orderTests (le : TestCase → TestCase → Bool) (a : TestCase)
    (l : List TestCase) : a ∈ orderTests le l ↔ a ∈ l := by
  induction l with
  | nil => simp [orderTests]
  | cons x xs ih => simp [orderTests, mem_insertOrdered, ih]

theorem mem_of_mem_slice {α : Type} {l : List α} {x : α} {off n : Nat}
    (h : x ∈ (l.drop off).take n) : x ∈ l :=
  List.mem_of_mem_drop (List.mem_of_mem_take h)

theorem mem_chunks_aux {α : Type} :
    ∀ (n : Nat) (l : List α), l.length ≤ n → ∀ (x : α) (limit : Nat), 1 ≤ limit → x ∈ l →
      ∃ p, 1 ≤ p ∧ x ∈ (l.drop ((p - 1) * limit)).take limit := by
  intro n
  induction n with
  | zero =>
    intro l hlen x limit hl hx
    rw [List.eq_nil_of_length_eq_zero (Nat.le_zero.mp hlen)] at hx
    cases hx
  | succ n ih =>
    intro l hlen x limit hl hx
    by_cases ht : x ∈ l.take limit
    · exact ⟨1, le_refl 1, by simpa using ht⟩
    · have hd : x ∈ l.drop limit := by
        have hsplit := List.take_append_drop limit l
        rw [← hsplit] at hx
        rcases List.mem_append.mp hx with h | h
        · exact absurd h ht
        · exact h
      have hpos : 0 < l.length := List.length_pos_of_mem hx
      have hlen' : (l.drop limit).length ≤ n := by
        rw [List.length_drop]
        omega
      obtain ⟨p', hp', hmem⟩ := ih (l.drop limit) hlen' x limit hl hd
      refine ⟨p' + 1, by omega, ?_⟩
      have harith : (p' + 1 - 1) * limit = limit + (p' - 1) * limit := by
        have h1 : p' - 1 + 1 = p' := Nat.succ_pred_eq_of_pos hp'
        calc (p' + 1 - 1) * limit = p' * limit := by simp
          _ = (p' - 1 + 1) * limit := by rw [h1]
          _ = (p' - 1) * limit + limit := by rw [Nat.succ_mul]
          _ = limit + (p' - 1) * limit := Nat.add_comm _ _
      rw [harith, ← List.drop_drop]
      exact hmem

theorem mem_chunks {α : Type} (l : List α) (x : α) (limit : Nat)
    (hl : 1 ≤ limit) (hx : x ∈ l) :
    ∃ p, 1 ≤ p ∧ x ∈ (l.drop ((p - 1) * limit)).take limit :=
  mem_chunks_aux l.length l (le_refl _) x limit hl hx

/-- C7: for a QA actor the scope filter is always applied: with no
narrowing filters, a test appears in some returned page exactly when it is
in the table and assigned to the actor; and with arbitrary narrowing
filters and pagination, every returned test is assigned to the actor. -/
theorem C7_qa_scope_invariant (db : Db) (u : User) (le : TestCase → TestCase → Bool)
    (limit : Nat) (t : TestCase) (hrole : u.role = Role.QA) (hl : 1 ≤ limit) :
    ((∃ p, 1 ≤ p ∧ t ∈ getTestsPage u noFilters le p limit db) ↔
      (t ∈ db.tests ∧ t.assigned_to = u.id)) ∧
    (∀ (q : TestQuery) (p lim : Nat), t ∈ getTestsPage u q le p lim db → t.assigned_to = u.id) := by
  constructor
  · constructor
    · rintro ⟨p, hp, hmem⟩
      have h1 : t ∈ orderTests le (getTestsFiltered u noFilters db) := mem_of_mem_slice hmem
      have h2 : t ∈ getTestsFiltered u noFilters db := (mem_orderTests le t _).mp h1
      have h3 := List.mem_filter.mp h2
      refine ⟨h3.1, ?_⟩
      have hv := ((Bool.and_eq_true _ _).mp h3.2).1
      simpa [testVisibleToRole, hrole] using hv
    · rintro ⟨hmem, hass⟩
      have hfil : t ∈ getTestsFiltered u noFilters db := by
        apply List.mem_filter.mpr
        refine ⟨hmem, ?_⟩
        simp [testVisibleToRole, testMatchesQuery, noFilters, hrole, hass]
      have hord : t ∈ orderTests le (getTestsFiltered u noFilters db) :=
        (mem_orderTests le t _).mpr hfil
      exact mem_chunks _ t limit hl hord
  · intro q p lim hmem
    have h1 := mem_of_mem_slice hmem
    have h2 := (mem_orderTests le t _).mp h1
    have h3 := List.mem_filter.mp h2
    have hv := ((Bool.and_eq_true _ _).mp h3.2).1
    simpa [testVisibleToRole, hrole] using hv

def leTrue : TestCase → TestCase → Bool := fun _ _ => true

/-- C7 witness: the scope conclusion evaluated on the concrete fixture. -/
theorem C7_qa_scope_invariant_witness : exTest.assigned_to = qaUser.id :=
  (C7_qa_scope_invariant exDb qaUser leTrue 10 exTest rfl (by decide)).2
    noFilters 1 10 (by decide)

end QualitySync
